import Mathlib

/-!
Shallow embedding of the proof-composition layer in src/proof_gen.rs
(topos-protocol/plonky-block-proof-gen), together with the value types it
imports from the (absent) proof_types module, modelled from the spec where
noted. Machine integers (usize transaction indices, U256 gas and bloom
values) are modelled as Nat: the layer only copies them, never computes
with them, so no overflow reduction is needed. Opaque engine objects
(proof blobs, trie-root digests, block metadata) are modelled as Nat ids,
matching their role as uninspected handles. The external prover engine is
one structure of three fallible operations, passed inside ProverState,
mirroring the p_state.state receiver in the source. The Rust Result is
Except; the mutable TimingTree instrumentation argument is excluded by the
spec (section 1) and dropped.
-/

namespace ProofGen

/-- Block height, as in the source type alias. -/
abbrev BlockHeight := Nat

/-- Transaction index within a block. -/
abbrev TxnIdx := Nat

/-- Opaque prover-engine proof blob; the layer never inspects it. -/
abbrev PlonkyProofIntern := Nat

/-- Opaque trie-root digest triple supplied by the engine; never inspected here. -/
abbrev TrieRoots := Nat

/-- Opaque block metadata, part of BlockLevelData. -/
abbrev BlockMetadata := Nat

/-- Opaque block hashes, part of BlockLevelData. -/
abbrev BlockHashes := Nat

/-- Rust core::ops::Range over transaction indices; the Rust field `end`
is a Lean keyword and is named `stop` here. -/
structure TxnRange where
  start : TxnIdx
  stop : TxnIdx
deriving Repr, DecidableEq

/-- Modelled from the spec: the covered-transaction-range value type of the
absent proof_types module ("value types capturing a transaction-index
range", section 2), a wrapper around a half-open index range. -/
structure ProofUnderlyingTxns where
  txn_idxs : TxnRange
deriving Repr, DecidableEq

/-- Modelled from the spec: `combine` of the absent proof_types module.
The spec (section 4.1) gives the combined value \x7bstart: a.start, end:
b.end\x7d. The spec also says combine fails with RangeDiscontinuity unless
a.end == b.start, but the caller in src/proof_gen.rs (lines 85-87 and
111-116) uses the result infallibly — no Result, no unwrap — so the
signature is fixed by the source as total and only the returned value is
taken from the spec. -/
def ProofUnderlyingTxns.combine (a b : ProofUnderlyingTxns) : ProofUnderlyingTxns :=
  ⟨⟨a.txn_idxs.start, b.txn_idxs.stop⟩⟩

/-- Before/after execution deltas attached to every proof header, from the
absent proof_types module as constrained by src/proof_gen.rs lines 133-143. -/
structure ProofBeforeAndAfterDeltas where
  gas_used_before : Nat
  gas_used_after : Nat
  block_bloom_before : Nat
  block_bloom_after : Nat
deriving Repr, DecidableEq

/-- The plonky2_evm extra block data carried inside PublicValues: the
per-range metadata (transaction-number window, gas window, bloom window). -/
structure ExtraBlockData where
  txn_number_before : TxnIdx
  txn_number_after : TxnIdx
  gas_used_before : Nat
  gas_used_after : Nat
  block_bloom_before : Nat
  block_bloom_after : Nat
deriving Repr, DecidableEq

/-- Modelled from the spec: `into_extra_block_data` of the absent
proof_types module — "extra metadata re-derived from the merged deltas and
combined range" (section 4.3 step 3): the range endpoints become the
transaction-number window and the four delta fields are copied across. -/
def ProofBeforeAndAfterDeltas.into_extra_block_data
    (d : ProofBeforeAndAfterDeltas) (txn_start txn_stop : TxnIdx) : ExtraBlockData :=
  { txn_number_before := txn_start
    txn_number_after := txn_stop
    gas_used_before := d.gas_used_before
    gas_used_after := d.gas_used_after
    block_bloom_before := d.block_bloom_before
    block_bloom_after := d.block_bloom_after }

/-- Modelled from the spec: the `impl From<ExtraBlockData> for
ProofBeforeAndAfterDeltas` conversion of the absent proof_types module,
used at src/proof_gen.rs line 63 as `.into()`: it keeps the four delta
fields and drops the transaction-number window. -/
def ExtraBlockData.into_deltas (e : ExtraBlockData) : ProofBeforeAndAfterDeltas :=
  { gas_used_before := e.gas_used_before
    gas_used_after := e.gas_used_after
    block_bloom_before := e.block_bloom_before
    block_bloom_after := e.block_bloom_after }

/-- The engine-visible public values of a proof (plonky2_evm::proof::PublicValues),
as constrained by its construction at src/proof_gen.rs lines 118-124 and 165-175. -/
structure PublicValues where
  trie_roots_before : TrieRoots
  trie_roots_after : TrieRoots
  block_metadata : BlockMetadata
  block_hashes : BlockHashes
  extra_block_data : ExtraBlockData
deriving Repr, DecidableEq

/-- Caller-supplied block-level context (section 6 of the spec), from the
absent proof_types module as used at src/proof_gen.rs lines 121-122 and 168-169. -/
structure BlockLevelData where
  b_meta : BlockMetadata
  b_hashes : BlockHashes
deriving Repr, DecidableEq

/-- The common metadata header shared by transaction and aggregate proofs,
from the absent proof_types module as constrained by src/proof_gen.rs
lines 42-47 and 76-81. -/
structure ProofCommon where
  b_height : BlockHeight
  deltas : ProofBeforeAndAfterDeltas
  roots_before : TrieRoots
  roots_after : TrieRoots
deriving Repr, DecidableEq

/-- A generated leaf transaction proof, from the absent proof_types module
as constrained by its construction at src/proof_gen.rs lines 49-53. -/
structure GeneratedTxnProof where
  txn_idx : TxnIdx
  common : ProofCommon
  intern : PlonkyProofIntern
deriving Repr, DecidableEq

/-- A generated aggregate proof, from the absent proof_types module as
constrained by its construction at src/proof_gen.rs lines 83-89. -/
structure GeneratedAggProof where
  common : ProofCommon
  underlying_txns : ProofUnderlyingTxns
  intern : PlonkyProofIntern
deriving Repr, DecidableEq

/-- A generated block proof, from the absent proof_types module as
constrained by its construction at src/proof_gen.rs lines 182-185: block
height and the opaque proof, nothing else. -/
structure GeneratedBlockProof where
  b_height : BlockHeight
  intern : PlonkyProofIntern
deriving Repr, DecidableEq

/-- The tagged union over transaction and aggregate proofs, from the absent
proof_types module as constrained by the match at src/proof_gen.rs lines
146-149. -/
inductive AggregatableProof where
  | Txn (p : GeneratedTxnProof)
  | Agg (p : GeneratedAggProof)
deriving Repr, DecidableEq

/-- Modelled from the spec: the `common()` accessor of the absent
proof_types module (section 4.2): the header of the wrapped proof. -/
def AggregatableProof.common : AggregatableProof → ProofCommon
  | .Txn p => p.common
  | .Agg p => p.common

/-- Modelled from the spec: the `underlying_txns()` accessor of the absent
proof_types module (sections 3 and 4.2): a leaf transaction proof covers
exactly its one transaction index, an aggregate carries its stored range. -/
def AggregatableProof.underlying_txns : AggregatableProof → ProofUnderlyingTxns
  | .Txn p => ⟨⟨p.txn_idx, p.txn_idx + 1⟩⟩
  | .Agg p => p.underlying_txns

/-- Modelled from the spec: the `b_height()` accessor of the absent
proof_types module, the block height of the common header. -/
def AggregatableProof.b_height (p : AggregatableProof) : BlockHeight :=
  p.common.b_height

/-- Modelled from the spec: the transaction generation-input record of the
absent proof_types module (section 6): it exposes block height, transaction
index and deltas, plus a method to materialize the engine-native inputs. -/
structure TxnProofGenIR where
  b_height : BlockHeight
  txn_idx : TxnIdx
  deltas : ProofBeforeAndAfterDeltas
deriving Repr, DecidableEq

/-- The engine-native generation inputs (opaque to this layer): the record
and the block-level data packed together. -/
structure GenerationInputs where
  ir : TxnProofGenIR
  b_data : BlockLevelData
deriving Repr, DecidableEq

/-- Modelled from the spec: `into_generation_inputs` of the absent
proof_types module — "a method to materialize the engine-native
generation-inputs shape" (section 6). -/
def TxnProofGenIR.into_generation_inputs (ir : TxnProofGenIR) (b_data : BlockLevelData) :
    GenerationInputs :=
  ⟨ir, b_data⟩

/-- Opaque plonky2_evm circuit set; AllStark::default() in the source. -/
abbrev AllStark := Unit

/-- The default circuit set passed at src/proof_gen.rs line 35. -/
def AllStark.default : AllStark := ()

/-- Opaque STARK configuration. -/
abbrev StarkConfig := Unit

/-- The standard fast config passed at src/proof_gen.rs line 36. -/
def StarkConfig.standard_fast_config : StarkConfig := ()

/-- The external prover engine (spec section 6): three opaque fallible
operations. Engine errors are their diagnostic strings. -/
structure ProverEngine where
  prove_root : AllStark → StarkConfig → GenerationInputs →
    Except String (PlonkyProofIntern × PublicValues)
  prove_aggregation : Bool → PlonkyProofIntern → Bool → PlonkyProofIntern → PublicValues →
    Except String (PlonkyProofIntern × PublicValues)
  prove_block : Option PlonkyProofIntern → PlonkyProofIntern → PublicValues →
    Except String (PlonkyProofIntern × PublicValues)

/-- The prover-state handle; its `state` field is the engine, mirroring the
p_state.state receiver in the source. -/
structure ProverState where
  state : ProverEngine

/-- src/proof_gen.rs line 15: a newtype around the diagnostic string. -/
structure ProofGenError where
  val : String
deriving Repr, DecidableEq

/-- src/proof_gen.rs lines 17-21: impl From of String for ProofGenError. -/
def ProofGenError.fromString (v : String) : ProofGenError :=
  ⟨v⟩

/-- src/proof_gen.rs line 13. -/
abbrev ProofGenResult (T : Type) := Except ProofGenError T

/-- src/proof_gen.rs lines 23-54: generate a leaf transaction proof. The
map_err together with the question-mark From conversion becomes one
mapError into ProofGenError. -/
def generate_txn_proof (p_state : ProverState) (start_info : TxnProofGenIR)
    (b_data : BlockLevelData) : ProofGenResult GeneratedTxnProof := do
  let b_height := start_info.b_height
  let txn_idx := start_info.txn_idx
  let deltas := start_info.deltas
  let (txn_proof_intern, p_vals) ←
    (p_state.state.prove_root AllStark.default StarkConfig.standard_fast_config
        (start_info.into_generation_inputs b_data)).mapError
      (fun err => ProofGenError.fromString (toString err))
  let common : ProofCommon :=
    { b_height := b_height
      deltas := deltas
      roots_before := p_vals.trie_roots_before
      roots_after := p_vals.trie_roots_after }
  pure { txn_idx := txn_idx, common := common, intern := txn_proof_intern }

/-- src/proof_gen.rs lines 98-101 (without the borrow lifetime). -/
structure ExpandedAggregatableProof where
  intern : PlonkyProofIntern
  is_agg : Bool
deriving Repr, DecidableEq

/-- src/proof_gen.rs lines 92-96 (without the borrow lifetime). -/
structure ExpandedAggregatableProofs where
  p_vals : PublicValues
  lhs : ExpandedAggregatableProof
  rhs : ExpandedAggregatableProof
deriving Repr, DecidableEq

/-- src/proof_gen.rs lines 133-143: fold two delta windows by taking the
outer edges and discarding the inner values. -/
def merge_lhs_and_rhs_deltas (lhs rhs : ProofBeforeAndAfterDeltas) :
    ProofBeforeAndAfterDeltas :=
  { gas_used_before := lhs.gas_used_before
    gas_used_after := rhs.gas_used_after
    block_bloom_before := lhs.block_bloom_before
    block_bloom_after := rhs.block_bloom_after }

/-- src/proof_gen.rs lines 145-154: view one aggregatable proof as its
opaque blob plus the aggregation flag, returning the header alongside. -/
def expand_aggregatable_proof (p : AggregatableProof) :
    ExpandedAggregatableProof × ProofCommon :=
  match p with
  | .Txn txn_intern => (⟨txn_intern.intern, false⟩, txn_intern.common)
  | .Agg agg_intern => (⟨agg_intern.intern, true⟩, agg_intern.common)

/-- src/proof_gen.rs lines 103-131: combine the ranges, merge the deltas,
and hand-build the public values for the aggregation engine call. -/
def expand_aggregatable_proofs (lhs_child rhs_child : AggregatableProof)
    (b_data : BlockLevelData) : ExpandedAggregatableProofs :=
  let (expanded_lhs, lhs_common) := expand_aggregatable_proof lhs_child
  let (expanded_rhs, rhs_common) := expand_aggregatable_proof rhs_child
  let txn_idxs := (lhs_child.underlying_txns).combine (rhs_child.underlying_txns)
  let deltas := merge_lhs_and_rhs_deltas lhs_common.deltas rhs_common.deltas
  let extra_block_data :=
    deltas.into_extra_block_data txn_idxs.txn_idxs.start txn_idxs.txn_idxs.stop
  let p_vals : PublicValues :=
    { trie_roots_before := lhs_common.roots_before
      trie_roots_after := rhs_common.roots_after
      block_metadata := b_data.b_meta
      block_hashes := b_data.b_hashes
      extra_block_data := extra_block_data }
  { p_vals := p_vals, lhs := expanded_lhs, rhs := expanded_rhs }

/-- src/proof_gen.rs lines 56-90: generate an aggregate proof from two
aggregatable children. -/
def generate_agg_proof (p_state : ProverState) (lhs_child rhs_child : AggregatableProof)
    (b_data : BlockLevelData) : ProofGenResult GeneratedAggProof := do
  let expanded_agg_proofs := expand_aggregatable_proofs lhs_child rhs_child b_data
  let deltas := expanded_agg_proofs.p_vals.extra_block_data.into_deltas
  let (agg_proof_intern, p_vals) ←
    (p_state.state.prove_aggregation
        expanded_agg_proofs.lhs.is_agg
        expanded_agg_proofs.lhs.intern
        expanded_agg_proofs.rhs.is_agg
        expanded_agg_proofs.rhs.intern
        expanded_agg_proofs.p_vals).mapError
      (fun err => ProofGenError.fromString (toString err))
  let common : ProofCommon :=
    { b_height := lhs_child.b_height
      deltas := deltas
      roots_before := p_vals.trie_roots_before
      roots_after := p_vals.trie_roots_after }
  pure
    { common := common
      underlying_txns := (lhs_child.underlying_txns).combine (rhs_child.underlying_txns)
      intern := agg_proof_intern }

/-- src/proof_gen.rs lines 165-175: the public values hand-built for the
block engine call (the let-bound p_vals of generate_block_proof), extracted
as a named definition so the value passed to the engine can be stated. -/
def block_proof_p_vals (curr_block_agg_proof : GeneratedAggProof)
    (b_data : BlockLevelData) : PublicValues :=
  { trie_roots_before := curr_block_agg_proof.common.roots_before
    trie_roots_after := curr_block_agg_proof.common.roots_after
    block_metadata := b_data.b_meta
    block_hashes := b_data.b_hashes
    extra_block_data :=
      curr_block_agg_proof.common.deltas.into_extra_block_data
        0 curr_block_agg_proof.underlying_txns.txn_idxs.stop }

/-- src/proof_gen.rs lines 156-186: generate the block proof from the
terminal aggregate and the optional parent block proof. The engine-returned
public values are discarded (the underscore at line 177). -/
def generate_block_proof (p_state : ProverState)
    (prev_opt_parent_b_proof : Option GeneratedBlockProof)
    (curr_block_agg_proof : GeneratedAggProof)
    (b_data : BlockLevelData) : ProofGenResult GeneratedBlockProof := do
  let b_height := curr_block_agg_proof.common.b_height
  let parent_intern := prev_opt_parent_b_proof.map (fun p => p.intern)
  let p_vals := block_proof_p_vals curr_block_agg_proof b_data
  let (b_proof_intern, _) ←
    (p_state.state.prove_block parent_intern curr_block_agg_proof.intern p_vals).mapError
      (fun err => ProofGenError.fromString (toString err))
  pure { b_height := b_height, intern := b_proof_intern }

/-! Concrete fixtures: stub engines and small proofs used by witnesses and
counterexamples. -/

/-- A concrete extra-block-data value for stub public values. -/
def ebd_stub : ExtraBlockData :=
  ⟨0, 1, 0, 10, 1, 2⟩

/-- A concrete public-values record returned by the succeeding stub engine. -/
def pv_stub : PublicValues :=
  { trie_roots_before := 11
    trie_roots_after := 12
    block_metadata := 0
    block_hashes := 0
    extra_block_data := ebd_stub }

/-- A stub engine that always succeeds, returning fixed blobs and pv_stub. -/
def ok_engine : ProverEngine :=
  { prove_root := fun _ _ _ => .ok (101, pv_stub)
    prove_aggregation := fun _ _ _ _ _ => .ok (102, pv_stub)
    prove_block := fun _ _ _ => .ok (103, pv_stub) }

/-- A stub engine that always fails with the diagnostic text boom. -/
def fail_engine : ProverEngine :=
  { prove_root := fun _ _ _ => .error "boom"
    prove_aggregation := fun _ _ _ _ _ => .error "boom"
    prove_block := fun _ _ _ => .error "boom" }

/-- Prover state wrapping the succeeding stub engine. -/
def ps_ok : ProverState :=
  ⟨ok_engine⟩

/-- Prover state wrapping the failing stub engine. -/
def ps_fail : ProverState :=
  ⟨fail_engine⟩

/-- Concrete deltas for the first fixture transaction. -/
def deltas0 : ProofBeforeAndAfterDeltas :=
  ⟨0, 10, 1, 2⟩

/-- Concrete deltas for the second fixture transaction. -/
def deltas1 : ProofBeforeAndAfterDeltas :=
  ⟨10, 25, 2, 3⟩

/-- Fixture leaf proof covering transaction index 0 at height 5. -/
def txn0 : GeneratedTxnProof :=
  { txn_idx := 0
    common := { b_height := 5, deltas := deltas0, roots_before := 11, roots_after := 12 }
    intern := 201 }

/-- Fixture leaf proof covering transaction index 1 at height 5. -/
def txn1 : GeneratedTxnProof :=
  { txn_idx := 1
    common := { b_height := 5, deltas := deltas1, roots_before := 12, roots_after := 13 }
    intern := 202 }

/-- Fixture leaf proof covering transaction index 5, leaving a gap after txn0. -/
def txn_gap : GeneratedTxnProof :=
  { txn_idx := 5
    common := { b_height := 5, deltas := deltas1, roots_before := 12, roots_after := 13 }
    intern := 203 }

/-- Fixture aggregate proof covering the range 2 to 4 at height 5. -/
def agg0 : GeneratedAggProof :=
  { common := { b_height := 5, deltas := deltas0, roots_before := 11, roots_after := 13 }
    underlying_txns := ⟨⟨2, 4⟩⟩
    intern := 301 }

/-- Fixture block-level data. -/
def bd0 : BlockLevelData :=
  ⟨0, 0⟩

/-- A second fixture block-level data, differing from bd0 in the metadata. -/
def bd1 : BlockLevelData :=
  ⟨1, 0⟩

/-- Fixture transaction generation-input record. -/
def ir0 : TxnProofGenIR :=
  { b_height := 5, txn_idx := 0, deltas := deltas0 }

/-!  Theorems settling the claims. -/

/-- Claim C4: for all deltas a and b, merging them yields gas_used_before
from a, gas_used_after from b, bloom_before from a and bloom_after from b —
the outer-edge selection law, with the inner values discarded. -/
theorem claim_C4_merge_outer_edges (a b : ProofBeforeAndAfterDeltas) :
    merge_lhs_and_rhs_deltas a b =
      { gas_used_before := a.gas_used_before
        gas_used_after := b.gas_used_after
        block_bloom_before := a.block_bloom_before
        block_bloom_after := b.block_bloom_after } :=
  rfl

/-- Claim C6: a successful generate_txn_proof copies block height,
transaction index and deltas from the input record and takes the trie
roots before and after from the engine-returned public values. -/
theorem claim_C6_txn_proof_fields (p_state : ProverState) (start_info : TxnProofGenIR)
    (b_data : BlockLevelData) (pr : PlonkyProofIntern) (pv : PublicValues)
    (h : p_state.state.prove_root AllStark.default StarkConfig.standard_fast_config
        (start_info.into_generation_inputs b_data) = .ok (pr, pv)) :
    generate_txn_proof p_state start_info b_data = .ok
      { txn_idx := start_info.txn_idx
        common :=
          { b_height := start_info.b_height
            deltas := start_info.deltas
            roots_before := pv.trie_roots_before
            roots_after := pv.trie_roots_after }
        intern := pr } := by
  simp only [generate_txn_proof, h, Except.mapError, bind, Except.bind, pure]
  rfl

/-- Witness for claim C6 at the succeeding stub engine and fixture record. -/
theorem claim_C6_witness :
    generate_txn_proof ps_ok ir0 bd0 = .ok
      { txn_idx := 0
        common := { b_height := 5, deltas := deltas0, roots_before := 11, roots_after := 12 }
        intern := 101 } :=
  claim_C6_txn_proof_fields ps_ok ir0 bd0 101 pv_stub rfl

/-- Claim C8: a successful generate_block_proof returns a block height equal
to the common block height of the input aggregate proof. -/
theorem claim_C8_block_height (p_state : ProverState)
    (prev : Option GeneratedBlockProof) (curr : GeneratedAggProof)
    (b_data : BlockLevelData) (r : GeneratedBlockProof)
    (h : generate_block_proof p_state prev curr b_data = .ok r) :
    r.b_height = curr.common.b_height := by
  simp only [generate_block_proof] at h
  cases hres : p_state.state.prove_block (prev.map (fun p => p.intern)) curr.intern
      (block_proof_p_vals curr b_data) with
  | error e =>
    rw [hres] at h
    simp [Except.mapError, bind, Except.bind] at h
  | ok pr =>
    rw [hres] at h
    simp only [Except.mapError, bind, Except.bind, pure, Except.pure, Except.ok.injEq] at h
    rw [← h]

/-- Witness for claim C8 at the succeeding stub engine and fixture aggregate. -/
theorem claim_C8_witness :
    (({ b_height := 5, intern := 103 } : GeneratedBlockProof)).b_height =
      agg0.common.b_height :=
  claim_C8_block_height ps_ok none agg0 bd0 ⟨5, 103⟩ rfl

/-- Claim C9: with prev_block_proof none (a checkpoint height),
generate_block_proof succeeds whenever the engine succeeds, the engine
block-proving operation is invoked with a parent of none, and the produced
block proof mentions no parent. -/
theorem claim_C9_checkpoint (p_state : ProverState) (curr : GeneratedAggProof)
    (b_data : BlockLevelData) (pr : PlonkyProofIntern) (pv : PublicValues)
    (h : p_state.state.prove_block none curr.intern (block_proof_p_vals curr b_data) =
      .ok (pr, pv)) :
    generate_block_proof p_state none curr b_data = .ok
      { b_height := curr.common.b_height, intern := pr } := by
  simp only [generate_block_proof, Option.map_none']
  rw [h]
  rfl

/-- Witness for claim C9 at the succeeding stub engine and fixture aggregate. -/
theorem claim_C9_witness :
    generate_block_proof ps_ok none agg0 bd0 = .ok
      { b_height := 5, intern := 103 } :=
  claim_C9_checkpoint ps_ok agg0 bd0 103 pv_stub rfl

/-- A stub engine family whose block operation returns a fixed blob together
with the given public values, used to observe whether returned public
values influence the produced envelopes. -/
def engine_block_pv (pv : PublicValues) : ProverEngine :=
  { prove_root := fun _ _ _ => .ok (101, pv)
    prove_aggregation := fun _ _ _ _ _ => .ok (102, pv)
    prove_block := fun _ _ _ => .ok (103, pv) }

/-- A second stub public-values record, differing from pv_stub. -/
def pv_stub2 : PublicValues :=
  { pv_stub with trie_roots_before := 99 }

/-- Helper: the header returned by expand_aggregatable_proof is the common
header of the wrapped proof, for either variant. -/
theorem expand_aggregatable_proof_common (p : AggregatableProof) :
    (expand_aggregatable_proof p).2 = p.common := by
  cases p <;> rfl

/-- Helper: the deltas recovered from the hand-built aggregation public
values are exactly the outer-edge merge of the two common-header deltas. -/
theorem expand_p_vals_deltas (lhs_child rhs_child : AggregatableProof)
    (b_data : BlockLevelData) :
    (expand_aggregatable_proofs lhs_child rhs_child
        b_data).p_vals.extra_block_data.into_deltas =
      merge_lhs_and_rhs_deltas lhs_child.common.deltas rhs_child.common.deltas := by
  cases lhs_child <;> cases rhs_child <;> rfl

/-- Claim C5: a successful generate_agg_proof returns block height from the
lhs child, deltas equal to the outer-edge merge of the children deltas,
trie roots from the engine-returned public values, and underlying_txns
equal to the combination of the two children ranges. -/
theorem claim_C5_agg_proof_fields (p_state : ProverState)
    (lhs_child rhs_child : AggregatableProof) (b_data : BlockLevelData)
    (pr : PlonkyProofIntern) (pv : PublicValues)
    (h : p_state.state.prove_aggregation
        (expand_aggregatable_proofs lhs_child rhs_child b_data).lhs.is_agg
        (expand_aggregatable_proofs lhs_child rhs_child b_data).lhs.intern
        (expand_aggregatable_proofs lhs_child rhs_child b_data).rhs.is_agg
        (expand_aggregatable_proofs lhs_child rhs_child b_data).rhs.intern
        (expand_aggregatable_proofs lhs_child rhs_child b_data).p_vals = .ok (pr, pv)) :
    generate_agg_proof p_state lhs_child rhs_child b_data = .ok
      { common :=
          { b_height := lhs_child.b_height
            deltas := merge_lhs_and_rhs_deltas lhs_child.common.deltas rhs_child.common.deltas
            roots_before := pv.trie_roots_before
            roots_after := pv.trie_roots_after }
        underlying_txns := (lhs_child.underlying_txns).combine (rhs_child.underlying_txns)
        intern := pr } := by
  simp only [generate_agg_proof, expand_p_vals_deltas]
  rw [h]
  rfl

/-- Witness for claim C5: two adjacent fixture leaves under the succeeding
stub engine. -/
theorem claim_C5_witness :
    generate_agg_proof ps_ok (.Txn txn0) (.Txn txn1) bd0 = .ok
      { common :=
          { b_height := 5
            deltas := ⟨0, 25, 1, 3⟩
            roots_before := 11
            roots_after := 12 }
        underlying_txns := ⟨⟨0, 2⟩⟩
        intern := 102 } :=
  claim_C5_agg_proof_fields ps_ok (.Txn txn0) (.Txn txn1) bd0 102 pv_stub rfl

/-- Claim C1 counterexample: two fixture leaves covering the non-adjacent
ranges 0 to 1 and 5 to 6; generate_agg_proof does not fail with any range
error — under a succeeding engine it succeeds, silently spanning the gap. -/
theorem claim_C1_counterexample :
    (AggregatableProof.Txn txn0).underlying_txns.txn_idxs.stop ≠
      (AggregatableProof.Txn txn_gap).underlying_txns.txn_idxs.start ∧
    generate_agg_proof ps_ok (.Txn txn0) (.Txn txn_gap) bd0 = .ok
      { common :=
          { b_height := 5
            deltas := ⟨0, 25, 1, 3⟩
            roots_before := 11
            roots_after := 12 }
        underlying_txns := ⟨⟨0, 6⟩⟩
        intern := 102 } :=
  ⟨by decide, rfl⟩

/-- Claim C1 amended: generate_agg_proof performs no range-adjacency
validation at all — even when the children ranges are not adjacent it
invokes the engine, and when the engine succeeds it returns an aggregate
whose range runs from the lhs start to the rhs end, silently covering the
gap; its only failure mode is the engine error. -/
theorem claim_C1_no_local_range_validation (p_state : ProverState)
    (lhs_child rhs_child : AggregatableProof) (b_data : BlockLevelData)
    (pr : PlonkyProofIntern) (pv : PublicValues)
    (_hgap : lhs_child.underlying_txns.txn_idxs.stop ≠
      rhs_child.underlying_txns.txn_idxs.start)
    (h : p_state.state.prove_aggregation
        (expand_aggregatable_proofs lhs_child rhs_child b_data).lhs.is_agg
        (expand_aggregatable_proofs lhs_child rhs_child b_data).lhs.intern
        (expand_aggregatable_proofs lhs_child rhs_child b_data).rhs.is_agg
        (expand_aggregatable_proofs lhs_child rhs_child b_data).rhs.intern
        (expand_aggregatable_proofs lhs_child rhs_child b_data).p_vals = .ok (pr, pv)) :
    generate_agg_proof p_state lhs_child rhs_child b_data = .ok
      { common :=
          { b_height := lhs_child.b_height
            deltas := merge_lhs_and_rhs_deltas lhs_child.common.deltas rhs_child.common.deltas
            roots_before := pv.trie_roots_before
            roots_after := pv.trie_roots_after }
        underlying_txns :=
          ⟨⟨lhs_child.underlying_txns.txn_idxs.start,
            rhs_child.underlying_txns.txn_idxs.stop⟩⟩
        intern := pr } := by
  simp only [generate_agg_proof, expand_p_vals_deltas]
  rw [h]
  rfl

/-- Witness for the amended claim C1: the non-adjacent fixture leaves. -/
theorem claim_C1_witness :
    generate_agg_proof ps_ok (.Txn txn0) (.Txn txn_gap) bd1 = .ok
      { common :=
          { b_height := 5
            deltas := ⟨0, 25, 1, 3⟩
            roots_before := 11
            roots_after := 12 }
        underlying_txns := ⟨⟨0, 6⟩⟩
        intern := 102 } :=
  claim_C1_no_local_range_validation ps_ok (.Txn txn0) (.Txn txn_gap) bd1 102 pv_stub
    (by decide) rfl

/-- Claim C2 counterexample: the public values passed to the block engine
call depend on the caller-supplied block-level data and rebuild the extra
block data from index 0, so they are not the aggregate public values
reused verbatim — the same aggregate yields different engine inputs under
different block-level data, and the rebuilt transaction window start
differs from the aggregate range start. -/
theorem claim_C2_counterexample :
    bd0 ≠ bd1 ∧
    block_proof_p_vals agg0 bd0 ≠ block_proof_p_vals agg0 bd1 ∧
    (block_proof_p_vals agg0 bd0).extra_block_data.txn_number_before ≠
      agg0.underlying_txns.txn_idxs.start := by
  decide

/-- Claim C2 amended: generate_block_proof hand-rebuilds the public values
passed to the engine block-proving operation: trie roots before and after
are copied from the aggregate common header, block metadata and block
hashes come from the caller-supplied block-level data, and the extra block
data is recomputed from the aggregate deltas over the range from 0 to the
aggregate range end; the aggregate stores no public values to reuse. -/
theorem claim_C2_block_p_vals_rebuilt (curr : GeneratedAggProof)
    (b_data : BlockLevelData) :
    (block_proof_p_vals curr b_data).trie_roots_before = curr.common.roots_before ∧
    (block_proof_p_vals curr b_data).trie_roots_after = curr.common.roots_after ∧
    (block_proof_p_vals curr b_data).block_metadata = b_data.b_meta ∧
    (block_proof_p_vals curr b_data).block_hashes = b_data.b_hashes ∧
    (block_proof_p_vals curr b_data).extra_block_data =
      curr.common.deltas.into_extra_block_data 0 curr.underlying_txns.txn_idxs.stop :=
  ⟨rfl, rfl, rfl, rfl, rfl⟩

/-- Claim C3 counterexample: two engines whose block operations return the
same opaque blob but different public values produce identical
GeneratedBlockProof results — the engine-returned public values are
discarded, so the envelope cannot contain them as a field. -/
theorem claim_C3_counterexample :
    pv_stub ≠ pv_stub2 ∧
    generate_block_proof ⟨engine_block_pv pv_stub⟩ none agg0 bd0 =
      generate_block_proof ⟨engine_block_pv pv_stub2⟩ none agg0 bd0 :=
  ⟨by decide, rfl⟩

/-- Claim C3 amended: a successful generate_block_proof returns an envelope
holding exactly the block height and the engine-returned opaque blob, with
the engine-returned public values discarded; a successful
generate_txn_proof stores the transaction index, the common header (whose
trie roots come from the engine-returned public values) and the opaque
blob, not the full public values. -/
theorem claim_C3_envelope_fields (p_state : ProverState)
    (prev : Option GeneratedBlockProof) (curr : GeneratedAggProof)
    (b_data : BlockLevelData) (ir : TxnProofGenIR)
    (pr1 : PlonkyProofIntern) (pv1 : PublicValues)
    (pr2 : PlonkyProofIntern) (pv2 : PublicValues)
    (h1 : p_state.state.prove_block (prev.map (fun p => p.intern)) curr.intern
        (block_proof_p_vals curr b_data) = .ok (pr1, pv1))
    (h2 : p_state.state.prove_root AllStark.default StarkConfig.standard_fast_config
        (ir.into_generation_inputs b_data) = .ok (pr2, pv2)) :
    generate_block_proof p_state prev curr b_data = .ok
      { b_height := curr.common.b_height, intern := pr1 } ∧
    generate_txn_proof p_state ir b_data = .ok
      { txn_idx := ir.txn_idx
        common :=
          { b_height := ir.b_height
            deltas := ir.deltas
            roots_before := pv2.trie_roots_before
            roots_after := pv2.trie_roots_after }
        intern := pr2 } := by
  constructor
  · simp only [generate_block_proof]
    rw [h1]
    rfl
  · simp only [generate_txn_proof]
    rw [h2]
    rfl

/-- Witness for the amended claim C3 at the succeeding stub engine. -/
theorem claim_C3_witness :
    generate_block_proof ps_ok none agg0 bd0 = .ok
      { b_height := 5, intern := 103 } ∧
    generate_txn_proof ps_ok ir0 bd0 = .ok
      { txn_idx := 0
        common := { b_height := 5, deltas := deltas0, roots_before := 11, roots_after := 12 }
        intern := 101 } :=
  claim_C3_envelope_fields ps_ok none agg0 bd0 ir0 103 pv_stub 101 pv_stub rfl rfl

/-- Claim C7 counterexample: under an engine failing with the bare text
boom, all three composition calls return exactly that text as the whole
error message — identical across different steps and inputs, so the
message carries no step or input context beyond the engine diagnostic. -/
theorem claim_C7_counterexample :
    generate_txn_proof ps_fail ir0 bd0 = .error ⟨"boom"⟩ ∧
    generate_agg_proof ps_fail (.Txn txn0) (.Txn txn1) bd0 = .error ⟨"boom"⟩ ∧
    generate_block_proof ps_fail none agg0 bd0 = .error ⟨"boom"⟩ :=
  ⟨rfl, rfl, rfl⟩

/-- Claim C7 amended: whenever the engine reports a failure, each of the
three composition calls returns a single ProofGenError with no partial
result, whose message is exactly the engine diagnostic text — preserved
verbatim, with no step or input context added. -/
theorem claim_C7_error_propagation (ps1 ps2 ps3 : ProverState)
    (ir : TxnProofGenIR) (lhs_child rhs_child : AggregatableProof)
    (prev : Option GeneratedBlockProof) (curr : GeneratedAggProof)
    (b_data : BlockLevelData) (e1 e2 e3 : String)
    (h1 : ps1.state.prove_root AllStark.default StarkConfig.standard_fast_config
        (ir.into_generation_inputs b_data) = .error e1)
    (h2 : ps2.state.prove_aggregation
        (expand_aggregatable_proofs lhs_child rhs_child b_data).lhs.is_agg
        (expand_aggregatable_proofs lhs_child rhs_child b_data).lhs.intern
        (expand_aggregatable_proofs lhs_child rhs_child b_data).rhs.is_agg
        (expand_aggregatable_proofs lhs_child rhs_child b_data).rhs.intern
        (expand_aggregatable_proofs lhs_child rhs_child b_data).p_vals = .error e2)
    (h3 : ps3.state.prove_block (prev.map (fun p => p.intern)) curr.intern
        (block_proof_p_vals curr b_data) = .error e3) :
    generate_txn_proof ps1 ir b_data = .error ⟨e1⟩ ∧
    generate_agg_proof ps2 lhs_child rhs_child b_data = .error ⟨e2⟩ ∧
    generate_block_proof ps3 prev curr b_data = .error ⟨e3⟩ := by
  refine ⟨?_, ?_, ?_⟩
  · simp only [generate_txn_proof]
    rw [h1]
    rfl
  · simp only [generate_agg_proof]
    rw [h2]
    rfl
  · simp only [generate_block_proof]
    rw [h3]
    rfl

/-- Witness for the amended claim C7 at the failing stub engine. -/
theorem claim_C7_witness :
    generate_txn_proof ps_fail ir0 bd1 = .error ⟨"boom"⟩ ∧
    generate_agg_proof ps_fail (.Txn txn0) (.Txn txn1) bd1 = .error ⟨"boom"⟩ ∧
    generate_block_proof ps_fail none agg0 bd1 = .error ⟨"boom"⟩ :=
  claim_C7_error_propagation ps_fail ps_fail ps_fail ir0 (.Txn txn0) (.Txn txn1) none
    agg0 bd1 "boom" "boom" "boom" rfl rfl rfl

/-- Claim C10: the extra block data inside the public values passed to the
block engine call is rebuilt from the aggregate deltas over the range from
0 to the aggregate range end — the transaction window starts at 0 and ends
at the range end, and the value is invariant under changing the aggregate
actual range start, so an aggregate starting after 0 yields public values
describing a larger window than it covers. -/
theorem claim_C10_block_extra_data_from_zero (curr : GeneratedAggProof)
    (b_data : BlockLevelData) (s : TxnIdx) :
    (block_proof_p_vals curr b_data).extra_block_data =
      curr.common.deltas.into_extra_block_data 0 curr.underlying_txns.txn_idxs.stop ∧
    (block_proof_p_vals curr b_data).extra_block_data.txn_number_before = 0 ∧
    (block_proof_p_vals curr b_data).extra_block_data.txn_number_after =
      curr.underlying_txns.txn_idxs.stop ∧
    block_proof_p_vals
        { curr with underlying_txns := ⟨⟨s, curr.underlying_txns.txn_idxs.stop⟩⟩ }
        b_data =
      block_proof_p_vals curr b_data :=
  ⟨rfl, rfl, rfl, rfl⟩

end ProofGen
